import Mathlib

/-!
# librdkafka error objects (`src/rdkafka_error.c`)

A shallow embedding of the public error type of librdkafka: the constructor
`rd_kafka_error_new_v` / `rd_kafka_error_new`, the accessors, the destructor
and the legacy bridge `rd_kafka_error_to_legacy`.

Conventions of the embedding:

* a `char *` is `Option (List Char)`: `none` is `NULL`, `some p` points at the
  bytes `p` of its memory block.  The text such a pointer denotes is `cstr p`,
  the bytes before the first NUL; memory behind the end of a block is not
  modelled, so a block without a NUL reads as all of its bytes;
* `rd_kafka_resp_err_t` is `Int`;
* a `va_list` is the list of the arguments still to be fetched;
* everything the translation unit takes from elsewhere (the formatting engine
  behind `rd_vsnprintf` / `rd_snprintf`, `rd_kafka_err2str`, the contents of
  fresh heap memory, the identifier `ap1`) is a field of `Env`.
-/

namespace RdKafkaError

/-- The NUL byte that terminates a C string. -/
def NUL : Char := Char.ofNat 0

/-- The text a `char *` denotes: the bytes before the first NUL. -/
def cstr (p : List Char) : List Char := p.takeWhile (fun c => c != NUL)

/-- `*p` for a `const char *p`: the first byte; a pointer at no further bytes
reads the terminator. -/
def deref (p : List Char) : Char := p.headD NUL

/-- One variadic argument: an integer (`int`, also what `%c` fetches) or a
`char *`. -/
inductive Arg where
  | int (v : Int)
  | str (s : List Char)
  deriving DecidableEq, Repr

/-- A `va_list`: the arguments still to be fetched. -/
abbrev va_list := List Arg

/-- `va_copy(dst, src)`: the copy holds the same arguments. -/
def va_copy (src : va_list) : va_list := src

/-- `va_start(ap, fmt)`: the list of the variadic arguments of the call. -/
def va_start (args : List Arg) : va_list := args

/-- Everything `rdkafka_error.c` uses without defining it.

* `vformat fmt ap`: the complete output of the host formatting engine for the
  template at `fmt` and the arguments `ap`, or `none` when the engine reports
  failure;
* `err2str`: the bytes at the pointer `rd_kafka_err2str` returns;
* `junk`: the contents of freshly allocated heap memory, by offset;
* `ap1`: the argument list which the identifier `ap1` of the measuring call in
  `rd_kafka_error_new_v` stands for.  The function declares `ap` and `ap2`
  only. -/
structure Env where
  vformat : List Char → va_list → Option (List Char)
  err2str : Int → List Char
  junk : Nat → Char
  ap1 : va_list

/-- Store `src` at the start of the memory block `dst`.  The block keeps its
size: bytes that would land past its end are not part of it. -/
def poke (dst src : List Char) : List Char :=
  (src ++ dst.drop src.length).take dst.length

/-- `rd_vsnprintf(str, size, fmt, ap)`, which is `vsnprintf`.  Returns the
buffer afterwards and the return value: the length of the complete output
(terminator not counted), or `-1` when the engine fails.  With `size > 0` at
most `size - 1` bytes of output are stored, followed by a NUL; with `size = 0`
nothing is stored and `str` may be `NULL`. -/
def rd_vsnprintf (E : Env) (str : Option (List Char)) (size : Nat)
    (fmt : List Char) (ap : va_list) : Option (List Char) × Int :=
  match E.vformat fmt ap with
  | none => (str, -1)
  | some out =>
    (if size = 0 then str
     else str.map (fun b => poke b (out.take (size - 1) ++ [NUL])),
     (out.length : Int))

/-- `rd_snprintf(str, size, fmt, ...)`, which is `snprintf`: the variadic
front end of the same engine. -/
def rd_snprintf (E : Env) (str : Option (List Char)) (size : Nat)
    (fmt : List Char) (args : List Arg) : Option (List Char) × Int :=
  rd_vsnprintf E str size fmt (va_start args)

/-- `rd_malloc(n)`, counting only the bytes after the header: `n` bytes of
uninitialised memory. -/
def rd_malloc (E : Env) (n : Nat) : List Char := (List.range n).map E.junk

/-- `rd_kafka_err2str(code)`: the external code-to-description lookup. -/
def rd_kafka_err2str (E : Env) (code : Int) : List Char := E.err2str code

/-- `rd_kafka_error_t` (`struct rd_kafka_error_s`).  `errstr` is `NULL` or
points at the storage allocated behind the header, whose bytes it carries. -/
structure rd_kafka_error_t where
  code : Int
  errstr : Option (List Char)
  fatal : Bool
  txn_abortable : Bool
  deriving DecidableEq, Repr

/-- The test `fmt && *fmt`. -/
def fmt_given (fmt : Option (List Char)) : Bool :=
  match fmt with
  | none => false
  | some f => deref f != NUL

/-- The value of `strsz` in `rd_kafka_error_new_v` when the allocation is
made: the initial `0`, or, under `fmt && *fmt`, what the measuring call
`rd_vsnprintf(NULL, 0, fmt, ap1)` returns plus one. -/
def rd_kafka_error_new_v_strsz (E : Env) (fmt : Option (List Char)) : Int :=
  if fmt_given fmt then (rd_vsnprintf E none 0 (fmt.getD []) E.ap1).2 + 1
  else 0

/-- `rd_kafka_error_t *`: the heap block holding an error object, with the
number of times the block has been handed to `rd_free`. -/
structure error_ptr where
  obj : rd_kafka_error_t
  freed : Nat
  deriving DecidableEq, Repr

/-- `rd_free(ptr)`. -/
def rd_free (ptr : error_ptr) : error_ptr := { ptr with freed := ptr.freed + 1 }

/-- `rd_kafka_error_destroy(error)`. -/
def rd_kafka_error_destroy (error : error_ptr) : error_ptr := rd_free error

/-- `rd_kafka_error_new_v(code, fmt, ap)`. -/
def rd_kafka_error_new_v (E : Env) (code : Int) (fmt : Option (List Char))
    (ap : va_list) : error_ptr :=
  let ap2 := va_copy ap
  let strsz : Int := rd_kafka_error_new_v_strsz E fmt
  let storage := rd_malloc E strsz.toNat
  let error : rd_kafka_error_t :=
    { code := code, errstr := none, fatal := false, txn_abortable := false }
  if fmt_given fmt then
    { obj := { error with
               errstr := (rd_vsnprintf E (some storage) strsz.toNat
                            (fmt.getD []) ap2).1 },
      freed := 0 }
  else
    { obj := { error with errstr := none }, freed := 0 }

/-- `rd_kafka_error_new(code, fmt, ...)`. -/
def rd_kafka_error_new (E : Env) (code : Int) (fmt : Option (List Char))
    (args : List Arg) : error_ptr :=
  let ap := va_start args
  let error := rd_kafka_error_new_v E code fmt ap
  error

/-- `rd_kafka_error_code(error)`. -/
def rd_kafka_error_code (error : error_ptr) : Int := error.obj.code

/-- `rd_kafka_error_string(error)`: the pointer returned, as the bytes it
points at. -/
def rd_kafka_error_string (E : Env) (error : error_ptr) : List Char :=
  match error.obj.errstr with
  | some p => p
  | none => rd_kafka_err2str E error.obj.code

/-- `rd_kafka_error_is_fatal(error)`. -/
def rd_kafka_error_is_fatal (error : error_ptr) : Int :=
  if error.obj.fatal then 1 else 0

/-- `rd_kafka_error_is_txn_abortable(error)`. -/
def rd_kafka_error_is_txn_abortable (error : error_ptr) : Int :=
  if error.obj.txn_abortable then 1 else 0

/-- The template `"%s"`. -/
def fmt_s : List Char := ['%', 's']

/-- What `rd_kafka_error_to_legacy` leaves behind: the return value, the
caller's buffer and the error object. -/
structure legacy_t where
  err : Int
  errstr : Option (List Char)
  error : error_ptr
  deriving DecidableEq, Repr

/-- `rd_kafka_error_to_legacy(error, errstr, errstr_size)`. -/
def rd_kafka_error_to_legacy (E : Env) (error : error_ptr)
    (errstr : Option (List Char)) (errstr_size : Nat) : legacy_t :=
  let err := error.obj.code
  let errstr := (rd_snprintf E errstr errstr_size fmt_s
                  [Arg.str (rd_kafka_error_string E error)]).1
  let error := rd_kafka_error_destroy error
  { err := err, errstr := errstr, error := error }

/-- The text of an error: what the pointer `rd_kafka_error_string` returns
denotes. -/
def message (E : Env) (error : error_ptr) : List Char :=
  cstr (rd_kafka_error_string E error)

/-- The lifecycle of an error object. -/
inductive lifecycle where
  | constructed
  | consumed
  deriving DecidableEq, Repr

/-- The lifecycle state of the block behind an error pointer: consumed once it
has been handed to `rd_free`. -/
def error_ptr.state (error : error_ptr) : lifecycle :=
  if error.freed = 0 then lifecycle.constructed else lifecycle.consumed

/-- The four accessors of the public interface. -/
inductive accessor where
  | code
  | string
  | is_fatal
  | is_txn_abortable
  deriving DecidableEq, Repr

/-- What an accessor call returns: an `int` / `rd_kafka_resp_err_t`, or a
`const char *` as the bytes it points at. -/
inductive retval where
  | int (v : Int)
  | ptr (p : List Char)
  deriving DecidableEq, Repr

/-- One accessor call as a step on the error object: the object afterwards
and the value returned.  Each accessor takes a `const rd_kafka_error_t *` and
its body is one `return` of an expression over the fields; none stores to the
object. -/
def accessor.call (E : Env) (a : accessor) (error : error_ptr) :
    error_ptr × retval :=
  match a with
  | accessor.code => (error, retval.int (rd_kafka_error_code error))
  | accessor.string => (error, retval.ptr (rd_kafka_error_string E error))
  | accessor.is_fatal => (error, retval.int (rd_kafka_error_is_fatal error))
  | accessor.is_txn_abortable =>
    (error, retval.int (rd_kafka_error_is_txn_abortable error))

/-- A sequence of accessor calls on one error object, in order: the object
afterwards and the values returned. -/
def accessor.calls (E : Env) : List accessor → error_ptr →
    error_ptr × List retval
  | [], error => (error, [])
  | a :: rest, error =>
    let step := accessor.call E a error
    let tail := accessor.calls E rest step.1
    (tail.1, step.2 :: tail.2)

/-! ### A reference host -/

/-- Decimal digits of an integer, as `%d` prints it. -/
def decimal (v : Int) : List Char :=
  if v < 0 then '-' :: Nat.toDigits 10 v.natAbs else Nat.toDigits 10 v.natAbs

/-- Directive expansion of the reference engine over the text of a template:
`%d` prints an `int` in decimal, `%s` the text of a `char *`, `%c` one byte,
`%%` a percent sign, every other byte itself.  A directive it does not know,
or one without a matching argument, is a failure. -/
def expand : List Char → va_list → Option (List Char)
  | [], _ => some []
  | [c], _ => if c = '%' then none else some [c]
  | c :: d :: rest, ap =>
    if c = '%' then
      if d = '%' then (expand rest ap).map (fun o => '%' :: o)
      else match ap with
        | Arg.int v :: ap =>
          if d = 'd' then (expand rest ap).map (fun o => decimal v ++ o)
          else if d = 'c' then
            (expand rest ap).map (fun o => Char.ofNat (v % 256).toNat :: o)
          else none
        | Arg.str s :: ap =>
          if d = 's' then (expand rest ap).map (fun o => cstr s ++ o)
          else none
        | [] => none
    else (expand (d :: rest) ap).map (fun o => c :: o)

/-- Modelled from the spec: the host platform's string-formatting routine
behind `rd_vsnprintf` / `rd_snprintf` (printf-style substitution), which is
not part of `rdkafka_error.c`.  It reads the template as a C string. -/
def hostFormat (fmt : List Char) (ap : va_list) : Option (List Char) :=
  expand (cstr fmt) ap

/-- Modelled from the spec: the external code-to-description lookup
`defaultDescription(code)`, here with two entries of librdkafka's table. -/
def hostErr2str (code : Int) : List Char :=
  if code = 0 then "Success".toList
  else if code = -185 then "Local: Timed out".toList
  else "Err-?".toList

/-- A reference environment: the reference engine and lookup, fresh memory
filled with `?`, and `ap1` as given. -/
def hostEnv (ap1 : va_list) : Env :=
  { vformat := hostFormat, err2str := hostErr2str, junk := fun _ => '?',
    ap1 := ap1 }

/-- The C contract of the directive `%s`: the engine prints the text of its
`char *` argument. -/
def prints_s (E : Env) : Prop :=
  ∀ s : List Char, E.vformat fmt_s [Arg.str s] = some (cstr s)

/-! ## Memory and string lemmas -/

theorem poke_of_le (dst src : List Char) (h : src.length ≤ dst.length) :
    poke dst src = src ++ dst.drop src.length := by
  unfold poke
  apply List.take_of_length_le
  simp only [List.length_append, List.length_drop]
  omega

theorem not_mem_cstr (p : List Char) : NUL ∉ cstr p := by
  unfold cstr
  intro h
  have := List.mem_takeWhile_imp h
  simp at this

theorem cstr_append_nul (a b : List Char) (h : NUL ∉ a) :
    cstr (a ++ NUL :: b) = a := by
  unfold cstr
  induction a with
  | nil => simp
  | cons x xs ih =>
    have hx : x ≠ NUL := fun e => h (e ▸ List.mem_cons_self _ _)
    have hxs : NUL ∉ xs := fun m => h (List.mem_cons_of_mem _ m)
    simp [List.takeWhile_cons, hx, ih hxs]

theorem not_mem_take_cstr (p : List Char) (n : Nat) : NUL ∉ (cstr p).take n :=
  fun h => not_mem_cstr p (List.mem_of_mem_take h)

theorem length_rd_malloc (E : Env) (n : Nat) : (rd_malloc E n).length = n := by
  simp [rd_malloc]

theorem hostEnv_prints_s (ap1 : va_list) : prints_s (hostEnv ap1) := by
  intro s
  have h : cstr fmt_s = ['%', 's'] := by decide
  simp [hostEnv, hostFormat, h, expand]

/-! ## The constructor -/

theorem fmt_given_none : fmt_given none = false := rfl

theorem fmt_given_some (f : List Char) :
    fmt_given (some f) = true ↔ deref f ≠ NUL := by
  simp [fmt_given]

theorem fmt_given_eq_false_iff (fmt : Option (List Char)) :
    fmt_given fmt = false ↔ fmt = none ∨ ∃ f, fmt = some f ∧ cstr f = [] := by
  cases fmt with
  | none => simp [fmt_given]
  | some f =>
    cases f with
    | nil => simp [fmt_given, deref, cstr]
    | cons c cs =>
      by_cases hc : c = NUL <;> simp [fmt_given, deref, cstr, List.takeWhile_cons, hc]

theorem new_v_obj_code (E : Env) (code : Int) (fmt : Option (List Char))
    (ap : va_list) : (rd_kafka_error_new_v E code fmt ap).obj.code = code := by
  unfold rd_kafka_error_new_v
  cases fmt_given fmt <;> simp

theorem new_v_obj_flags (E : Env) (code : Int) (fmt : Option (List Char))
    (ap : va_list) :
    (rd_kafka_error_new_v E code fmt ap).obj.fatal = false ∧
    (rd_kafka_error_new_v E code fmt ap).obj.txn_abortable = false := by
  unfold rd_kafka_error_new_v
  cases fmt_given fmt <;> simp

theorem new_v_errstr_of_not_given (E : Env) (code : Int)
    (fmt : Option (List Char)) (ap : va_list) (h : fmt_given fmt = false) :
    (rd_kafka_error_new_v E code fmt ap).obj.errstr = none := by
  simp [rd_kafka_error_new_v, h]

theorem rd_vsnprintf_some_isSome (E : Env) (b : List Char) (size : Nat)
    (fmt : List Char) (ap : va_list) :
    (rd_vsnprintf E (some b) size fmt ap).1.isSome = true := by
  unfold rd_vsnprintf
  cases E.vformat fmt ap with
  | none => rfl
  | some out => by_cases hz : size = 0 <;> simp [hz]

theorem new_v_errstr_of_given (E : Env) (code : Int)
    (fmt : Option (List Char)) (ap : va_list) (h : fmt_given fmt = true) :
    (rd_kafka_error_new_v E code fmt ap).obj.errstr.isSome = true := by
  simp only [rd_kafka_error_new_v, h, if_true]
  exact rd_vsnprintf_some_isSome _ _ _ _ _

/-- C1: for every code, every template (absent, empty or non-empty) and every
argument list, `rd_kafka_error_code` of the value built by
`rd_kafka_error_new` and by `rd_kafka_error_new_v` is exactly that code. -/
theorem error_code_of_new (E : Env) (code : Int) (fmt : Option (List Char))
    (args : List Arg) :
    rd_kafka_error_code (rd_kafka_error_new E code fmt args) = code ∧
    rd_kafka_error_code (rd_kafka_error_new_v E code fmt args) = code :=
  ⟨new_v_obj_code E code fmt (va_start args), new_v_obj_code E code fmt args⟩

/-- C2: `rd_kafka_error_string` returns the stored message when there is one
and the default description `rd_kafka_err2str(code)` otherwise; and for every
code the value built with a `NULL` template has the default description of
that code as its message, pointer and text alike. -/
theorem error_string_stored_or_default (E : Env) (error : error_ptr)
    (code : Int) (args : List Arg) :
    rd_kafka_error_string E error
      = error.obj.errstr.getD (rd_kafka_err2str E error.obj.code) ∧
    rd_kafka_error_string E (rd_kafka_error_new E code none args)
      = rd_kafka_err2str E code ∧
    message E (rd_kafka_error_new E code none args)
      = cstr (rd_kafka_err2str E code) := by
  have h : rd_kafka_error_string E (rd_kafka_error_new E code none args)
      = rd_kafka_err2str E code := by
    simp [rd_kafka_error_string, rd_kafka_error_new, rd_kafka_error_new_v,
      fmt_given]
  refine ⟨?_, h, ?_⟩
  · unfold rd_kafka_error_string
    cases error.obj.errstr <;> rfl
  · simp [message, h]

/-- C4: for every code, template and argument list, the value produced by
`rd_kafka_error_new` / `rd_kafka_error_new_v` has `rd_kafka_error_is_fatal`
equal to 0 and `rd_kafka_error_is_txn_abortable` equal to 0. -/
theorem flags_clear_of_new (E : Env) (code : Int) (fmt : Option (List Char))
    (args : List Arg) :
    rd_kafka_error_is_fatal (rd_kafka_error_new E code fmt args) = 0 ∧
    rd_kafka_error_is_txn_abortable (rd_kafka_error_new E code fmt args) = 0 ∧
    rd_kafka_error_is_fatal (rd_kafka_error_new_v E code fmt args) = 0 ∧
    rd_kafka_error_is_txn_abortable (rd_kafka_error_new_v E code fmt args) = 0 := by
  have h := new_v_obj_flags E code fmt args
  have h2 := new_v_obj_flags E code fmt (va_start args)
  simp only [rd_kafka_error_is_fatal, rd_kafka_error_is_txn_abortable,
    rd_kafka_error_new]
  simp [h.1, h.2, h2.1, h2.2]

theorem va_start_holds_args (args : List Arg) : va_start args = args := rfl

/-- C8: the two construction entry points agree: for every code, template and
argument list `args`, `rd_kafka_error_new(code, fmt, args...)` and
`rd_kafka_error_new_v(code, fmt, ap)` with `ap` holding those same arguments
`args` build the same value, so code, message (absent, or the same bytes and
text) and both flags are equal. -/
theorem new_eq_new_v (E : Env) (code : Int) (fmt : Option (List Char))
    (args : List Arg) :
    rd_kafka_error_new E code fmt args = rd_kafka_error_new_v E code fmt args ∧
    rd_kafka_error_code (rd_kafka_error_new E code fmt args)
      = rd_kafka_error_code (rd_kafka_error_new_v E code fmt args) ∧
    (rd_kafka_error_new E code fmt args).obj.errstr
      = (rd_kafka_error_new_v E code fmt args).obj.errstr ∧
    rd_kafka_error_string E (rd_kafka_error_new E code fmt args)
      = rd_kafka_error_string E (rd_kafka_error_new_v E code fmt args) ∧
    message E (rd_kafka_error_new E code fmt args)
      = message E (rd_kafka_error_new_v E code fmt args) ∧
    rd_kafka_error_is_fatal (rd_kafka_error_new E code fmt args)
      = rd_kafka_error_is_fatal (rd_kafka_error_new_v E code fmt args) ∧
    rd_kafka_error_is_txn_abortable (rd_kafka_error_new E code fmt args)
      = rd_kafka_error_is_txn_abortable (rd_kafka_error_new_v E code fmt args) := by
  have h : rd_kafka_error_new E code fmt args
      = rd_kafka_error_new_v E code fmt args := by
    unfold rd_kafka_error_new
    rw [va_start_holds_args]
  refine ⟨h, ?_, ?_, ?_, ?_, ?_, ?_⟩ <;> rw [h]

theorem new_v_errstr_rendered (E : Env) (code : Int) (f : List Char)
    (ap : va_list) (out m : List Char) (hf : deref f ≠ NUL)
    (hout : E.vformat f ap = some out) (hmeas : E.vformat f E.ap1 = some m) :
    (rd_kafka_error_new_v E code (some f) ap).obj.errstr
      = some (poke (rd_malloc E (m.length + 1)) (out.take m.length ++ [NUL])) := by
  have hg : fmt_given (some f) = true := (fmt_given_some f).2 hf
  have hsz : rd_kafka_error_new_v_strsz E (some f) = (m.length : Int) + 1 := by
    simp [rd_kafka_error_new_v_strsz, hg, rd_vsnprintf, hmeas]
  have hn : ((m.length : Int) + 1).toNat = m.length + 1 := by omega
  simp [rd_kafka_error_new_v, hg, hsz, hn, rd_vsnprintf, va_copy, hout]

/-- C3, as the code has it: for every code, every non-empty template and every
argument list whose complete rendering by the formatting engine exists and
holds no NUL byte, the message of the value built by either constructor is
exactly that complete rendering, whatever its length, provided the measuring
call (which reads `ap1`) reported at least that length. -/
theorem message_of_new_rendered (E : Env) (code : Int) (f : List Char)
    (args : List Arg) (out m : List Char) (hf : deref f ≠ NUL)
    (hout : E.vformat f args = some out) (hnul : NUL ∉ out)
    (hmeas : E.vformat f E.ap1 = some m) (hlen : out.length ≤ m.length) :
    message E (rd_kafka_error_new E code (some f) args) = out ∧
    message E (rd_kafka_error_new_v E code (some f) args) = out := by
  have key : message E (rd_kafka_error_new_v E code (some f) args) = out := by
    have he := new_v_errstr_rendered E code f args out m hf hout hmeas
    have ht : out.take m.length = out := List.take_of_length_le hlen
    have hp : poke (rd_malloc E (m.length + 1)) (out ++ [NUL])
        = (out ++ [NUL]) ++ (rd_malloc E (m.length + 1)).drop (out ++ [NUL]).length := by
      apply poke_of_le
      simp only [List.length_append, List.length_singleton, length_rd_malloc]
      omega
    rw [ht, hp] at he
    simp only [message, rd_kafka_error_string, he, List.append_assoc,
      List.singleton_append]
    exact cstr_append_nul out _ hnul
  exact ⟨key, key⟩

/-- C3 witness: with the reference engine, `new(7, "retry %d of %d", 2, 5)` has
message exactly `"retry 2 of 5"`. -/
theorem message_of_new_rendered_witness :
    deref "retry %d of %d".toList ≠ NUL ∧
    hostFormat "retry %d of %d".toList [Arg.int 2, Arg.int 5]
      = some "retry 2 of 5".toList ∧
    NUL ∉ "retry 2 of 5".toList ∧
    message (hostEnv [Arg.int 2, Arg.int 5])
      (rd_kafka_error_new (hostEnv [Arg.int 2, Arg.int 5]) 7
        (some "retry %d of %d".toList) [Arg.int 2, Arg.int 5])
      = "retry 2 of 5".toList :=
  ⟨by decide, by decide, by decide,
   (message_of_new_rendered (hostEnv [Arg.int 2, Arg.int 5]) 7
      "retry %d of %d".toList [Arg.int 2, Arg.int 5] "retry 2 of 5".toList
      "retry 2 of 5".toList (by decide) (by decide) (by decide) (by decide)
      (by decide)).1⟩

/-- C3 counterexample: the template `"%c"` with the argument 0 renders to one
byte, the NUL byte, and the measuring call reads the same arguments; the
message of the constructed value is the empty text, not that rendering. -/
theorem message_of_new_not_rendering :
    deref "%c".toList ≠ NUL ∧
    hostFormat "%c".toList [Arg.int 0] = some [NUL] ∧
    message (hostEnv [Arg.int 0])
      (rd_kafka_error_new (hostEnv [Arg.int 0]) 7 (some "%c".toList) [Arg.int 0])
      = [] ∧
    message (hostEnv [Arg.int 0])
      (rd_kafka_error_new (hostEnv [Arg.int 0]) 7 (some "%c".toList) [Arg.int 0])
      ≠ [NUL] := by
  decide

/-- C9 counterexample: the template `"%s"` with an empty string argument
builds a value whose message is present and empty. -/
theorem new_message_present_but_empty :
    (rd_kafka_error_new (hostEnv [Arg.str "".toList]) 7 (some "%s".toList)
      [Arg.str "".toList]).obj.errstr = some [NUL] ∧
    message (hostEnv [Arg.str "".toList])
      (rd_kafka_error_new (hostEnv [Arg.str "".toList]) 7 (some "%s".toList)
        [Arg.str "".toList]) = [] := by
  decide

/-- C9, as the code has it: for every value produced by the constructor, the
message field is either absent, which is the case exactly when the template is
absent or empty, or it is present and its text (possibly empty) holds no NUL
byte. -/
theorem new_message_absent_or_nul_free (E : Env) (code : Int)
    (fmt : Option (List Char)) (args : List Arg) :
    ((rd_kafka_error_new E code fmt args).obj.errstr = none ∧
      fmt_given fmt = false) ∨
    (∃ p, (rd_kafka_error_new E code fmt args).obj.errstr = some p ∧
      fmt_given fmt = true ∧
      message E (rd_kafka_error_new E code fmt args) = cstr p ∧
      NUL ∉ message E (rd_kafka_error_new E code fmt args)) := by
  cases hg : fmt_given fmt with
  | false =>
    exact Or.inl ⟨new_v_errstr_of_not_given E code fmt (va_start args) hg, rfl⟩
  | true =>
    right
    have hs := new_v_errstr_of_given E code fmt (va_start args) hg
    obtain ⟨p, hp⟩ := Option.isSome_iff_exists.mp hs
    have hp2 : (rd_kafka_error_new E code fmt args).obj.errstr = some p := hp
    have hm : message E (rd_kafka_error_new E code fmt args) = cstr p := by
      simp [message, rd_kafka_error_string, hp2]
    exact ⟨p, hp2, rfl, hm, hm ▸ not_mem_cstr p⟩

/-- C10: for every code and every argument list, the constructed value's
message is absent exactly when the template is absent (`NULL`) or the empty
string; then the arguments are ignored and the message of the error is the
default description of the code.  So the message is present whenever the
template is non-empty. -/
theorem new_message_absent_iff (E : Env) (code : Int)
    (fmt : Option (List Char)) (args args2 : List Arg) :
    ((rd_kafka_error_new E code fmt args).obj.errstr = none ↔
      (fmt = none ∨ ∃ f, fmt = some f ∧ cstr f = [])) ∧
    ((rd_kafka_error_new E code fmt args).obj.errstr.isSome = true ↔
      ∃ f, fmt = some f ∧ cstr f ≠ []) ∧
    ((fmt = none ∨ ∃ f, fmt = some f ∧ cstr f = []) →
      rd_kafka_error_new E code fmt args = rd_kafka_error_new E code fmt args2 ∧
      message E (rd_kafka_error_new E code fmt args)
        = cstr (rd_kafka_err2str E code)) := by
  have habs := fmt_given_eq_false_iff fmt
  cases hg : fmt_given fmt with
  | false =>
    have hnone := fun a => new_v_errstr_of_not_given E code fmt (va_start a) hg
    have hne : (rd_kafka_error_new E code fmt args).obj.errstr = none := hnone args
    have hcase := habs.mp hg
    refine ⟨⟨fun _ => hcase, fun _ => hne⟩, ?_, fun _ => ⟨?_, ?_⟩⟩
    · rw [hne]
      constructor
      · intro h; simp at h
      · rintro ⟨f, rfl, hf⟩
        rcases hcase with h | ⟨g, hg2, hg3⟩
        · simp at h
        · cases hg2; exact absurd hg3 hf
    · simp [rd_kafka_error_new, rd_kafka_error_new_v, hg]
    · simp [message, rd_kafka_error_string, hne,
        new_v_obj_code E code fmt (va_start args), rd_kafka_error_new,
        show (rd_kafka_error_new_v E code fmt (va_start args)).obj.errstr = none
          from hne]
  | true =>
    have hsome := new_v_errstr_of_given E code fmt (va_start args) hg
    have hs : (rd_kafka_error_new E code fmt args).obj.errstr.isSome = true := hsome
    have hnot : ¬ (fmt = none ∨ ∃ f, fmt = some f ∧ cstr f = []) := by
      intro h; rw [habs.mpr h] at hg; cases hg
    refine ⟨⟨fun h => ?_, fun h => absurd h hnot⟩, ⟨fun _ => ?_, fun _ => hs⟩,
      fun h => absurd h hnot⟩
    · rw [h] at hs; simp at hs
    · cases fmt with
      | none => exact absurd (Or.inl rfl) hnot
      | some f => exact ⟨f, rfl, fun e => hnot (Or.inr ⟨f, rfl, e⟩)⟩

/-- C10 witness: the empty template with two arguments. -/
theorem new_message_absent_iff_witness :
    (rd_kafka_error_new (hostEnv []) 7 (some "".toList) [Arg.int 2, Arg.int 5])
      = rd_kafka_error_new (hostEnv []) 7 (some "".toList) [] ∧
    message (hostEnv [])
      (rd_kafka_error_new (hostEnv []) 7 (some "".toList) [Arg.int 2, Arg.int 5])
      = cstr (rd_kafka_err2str (hostEnv []) 7) :=
  (new_message_absent_iff (hostEnv []) 7 (some "".toList)
    [Arg.int 2, Arg.int 5] []).2.2 (Or.inr ⟨"".toList, rfl, by decide⟩)

/-! ## The legacy bridge -/

theorem to_legacy_err (E : Env) (error : error_ptr)
    (errstr : Option (List Char)) (errstr_size : Nat) :
    (rd_kafka_error_to_legacy E error errstr errstr_size).err
      = rd_kafka_error_code error := rfl

theorem to_legacy_errstr (E : Env) (error : error_ptr) (buf : List Char)
    (n : Nat) (hs : prints_s E) (hn : 0 < n) :
    (rd_kafka_error_to_legacy E error (some buf) n).errstr
      = some (poke buf ((message E error).take (n - 1) ++ [NUL])) := by
  have hz : n ≠ 0 := by omega
  simp [rd_kafka_error_to_legacy, rd_snprintf, rd_vsnprintf, va_start,
    hs (rd_kafka_error_string E error), hz, message]

/-- C5: for every error value whose text `message(error)` has length `L` and
every buffer size `n` with `0 < n <= L`, `rd_kafka_error_to_legacy(error,
buf, n)` leaves `buf` holding exactly the first `n - 1` bytes of
`message(error)` followed by a terminating NUL at index `n - 1` (the bytes
from index `n` on are as before), and returns the error's original code.
The buffer has at least `n` bytes and the engine honours `%s`. -/
theorem to_legacy_truncates (E : Env) (error : error_ptr) (buf : List Char)
    (n : Nat) (hs : prints_s E) (hn : 0 < n)
    (hL : n ≤ (message E error).length) (hbuf : n ≤ buf.length) :
    (rd_kafka_error_to_legacy E error (some buf) n).errstr
      = some ((message E error).take (n - 1) ++ NUL :: buf.drop n) ∧
    (rd_kafka_error_to_legacy E error (some buf) n).err
      = rd_kafka_error_code error := by
  refine ⟨?_, rfl⟩
  rw [to_legacy_errstr E error buf n hs hn]
  have hlen : ((message E error).take (n - 1) ++ [NUL]).length = n := by
    simp only [List.length_append, List.length_take, List.length_singleton]
    omega
  rw [poke_of_le _ _ (by omega), hlen]
  simp

/-- C5 witness: the message `"retry 2 of 5"` into a buffer of size 6. -/
theorem to_legacy_truncates_witness :
    (0 < 6) ∧
    6 ≤ (message (hostEnv [])
          ⟨⟨7, some "retry 2 of 5".toList, false, false⟩, 0⟩).length ∧
    6 ≤ "0123456789".toList.length ∧
    (rd_kafka_error_to_legacy (hostEnv [])
        ⟨⟨7, some "retry 2 of 5".toList, false, false⟩, 0⟩
        (some "0123456789".toList) 6).errstr
      = some ("retry".toList ++ NUL :: "6789".toList) ∧
    (rd_kafka_error_to_legacy (hostEnv [])
        ⟨⟨7, some "retry 2 of 5".toList, false, false⟩, 0⟩
        (some "0123456789".toList) 6).err = 7 :=
  ⟨by decide, by decide, by decide,
   to_legacy_truncates (hostEnv [])
     ⟨⟨7, some "retry 2 of 5".toList, false, false⟩, 0⟩ "0123456789".toList 6
     (hostEnv_prints_s []) (by decide) (by decide) (by decide)⟩

/-- C6: for every error value and every buffer size `n` strictly greater than
the length `L` of `message(error)`, `rd_kafka_error_to_legacy` writes the
whole of `message(error)` (the explicit message, or the default description of
the code when no message was set) followed by a NUL into the buffer, leaves
the buffer bytes past index `L` unchanged, and returns the original code.
The buffer has at least `n` bytes and the engine honours `%s`. -/
theorem to_legacy_whole_message (E : Env) (error : error_ptr)
    (buf : List Char) (n : Nat) (hs : prints_s E)
    (hL : (message E error).length < n) (hbuf : n ≤ buf.length) :
    (rd_kafka_error_to_legacy E error (some buf) n).errstr
      = some (message E error ++ NUL :: buf.drop ((message E error).length + 1)) ∧
    message E error
      = cstr (error.obj.errstr.getD (rd_kafka_err2str E error.obj.code)) ∧
    (rd_kafka_error_to_legacy E error (some buf) n).err
      = rd_kafka_error_code error := by
  refine ⟨?_, ?_, rfl⟩
  · rw [to_legacy_errstr E error buf n hs (by omega)]
    have ht : (message E error).take (n - 1) = message E error :=
      List.take_of_length_le (by omega)
    have hlen : (message E error ++ [NUL]).length = (message E error).length + 1 := by
      simp
    rw [ht, poke_of_le _ _ (by omega), hlen]
    simp
  · unfold message rd_kafka_error_string
    cases error.obj.errstr <;> rfl

/-- C6 witness: an error without a message, code -185, into a buffer of
size 20: the default description and a NUL, the last three bytes kept. -/
theorem to_legacy_whole_message_witness :
    (message (hostEnv []) ⟨⟨-185, none, false, false⟩, 0⟩).length < 20 ∧
    20 ≤ "0123456789abcdefghij".toList.length ∧
    (rd_kafka_error_to_legacy (hostEnv []) ⟨⟨-185, none, false, false⟩, 0⟩
        (some "0123456789abcdefghij".toList) 20).errstr
      = some ("Local: Timed out".toList ++ NUL :: "hij".toList) ∧
    (rd_kafka_error_to_legacy (hostEnv []) ⟨⟨-185, none, false, false⟩, 0⟩
        (some "0123456789abcdefghij".toList) 20).err = -185 :=
  have h := to_legacy_whole_message (hostEnv [])
    ⟨⟨-185, none, false, false⟩, 0⟩ "0123456789abcdefghij".toList 20
    (hostEnv_prints_s []) (by decide) (by decide)
  ⟨by decide, by decide, h.1, h.2.2⟩

/-- C7: for every error value and every buffer, `rd_kafka_error_to_legacy`
called with `errstr_size = 0` writes no bytes (the buffer is as before, and a
`NULL` buffer stays `NULL`) and still returns the error's original code. -/
theorem to_legacy_size_zero (E : Env) (error : error_ptr)
    (errstr : Option (List Char)) :
    (rd_kafka_error_to_legacy E error errstr 0).errstr = errstr ∧
    (rd_kafka_error_to_legacy E error errstr 0).err
      = rd_kafka_error_code error := by
  refine ⟨?_, rfl⟩
  simp only [rd_kafka_error_to_legacy, rd_snprintf, rd_vsnprintf]
  cases E.vformat fmt_s (va_start [Arg.str (rd_kafka_error_string E error)]) <;>
    simp

/-! ## Accessors -/

theorem accessor_call_fst (E : Env) (a : accessor) (error : error_ptr) :
    (accessor.call E a error).1 = error := by
  cases a <;> rfl

theorem accessor_calls_fst (E : Env) (l : List accessor) (error : error_ptr) :
    (accessor.calls E l error).1 = error := by
  induction l generalizing error with
  | nil => rfl
  | cons a rest ih =>
    simp only [accessor.calls]
    rw [ih, accessor_call_fst]

theorem accessor_calls_replicate_string (E : Env) (k : Nat) (error : error_ptr) :
    (accessor.calls E (List.replicate k accessor.string) error).2
      = List.replicate k (retval.ptr (rd_kafka_error_string E error)) := by
  induction k with
  | zero => rfl
  | succ k ih =>
    simp only [List.replicate_succ, accessor.calls]
    rw [accessor_call_fst, ih]
    rfl

/-- C11: accessors are pure reads: for every error value, any sequence of calls
to `rd_kafka_error_code`, `rd_kafka_error_string`, `rd_kafka_error_is_fatal`
and `rd_kafka_error_is_txn_abortable` leaves the object, hence its code,
message and both flags, unchanged; so `rd_kafka_error_string` called after any
such sequence returns the same bytes as before it, and `k` calls in a row
return the same bytes `k` times. -/
theorem accessors_pure_reads (E : Env) (l : List accessor) (k : Nat)
    (error : error_ptr) :
    (accessor.calls E l error).1 = error ∧
    (accessor.calls E l error).1.obj.code = error.obj.code ∧
    (accessor.calls E l error).1.obj.errstr = error.obj.errstr ∧
    (accessor.calls E l error).1.obj.fatal = error.obj.fatal ∧
    (accessor.calls E l error).1.obj.txn_abortable = error.obj.txn_abortable ∧
    (accessor.call E accessor.string (accessor.calls E l error).1).2
      = (accessor.call E accessor.string error).2 ∧
    message E (accessor.calls E l error).1 = message E error ∧
    (accessor.calls E (List.replicate k accessor.string) error).2
      = List.replicate k (retval.ptr (rd_kafka_error_string E error)) := by
  have h := accessor_calls_fst E l error
  refine ⟨h, ?_, ?_, ?_, ?_, ?_, ?_, accessor_calls_replicate_string E k error⟩ <;>
    rw [h]

/-- C13: the flag accessors are direct, independent field reads normalised to
0/1: for every error value, whatever its code, message, other flag and
allocation state, `rd_kafka_error_is_fatal` is 1 when the `fatal` field is set
and 0 when it is not, and `rd_kafka_error_is_txn_abortable` is 1 when
`txn_abortable` is set and 0 when it is not. -/
theorem flag_accessors_read_own_field (code : Int) (errstr : Option (List Char))
    (fatal txn_abortable : Bool) (freed : Nat) (error : error_ptr) :
    rd_kafka_error_is_fatal ⟨⟨code, errstr, true, txn_abortable⟩, freed⟩ = 1 ∧
    rd_kafka_error_is_fatal ⟨⟨code, errstr, false, txn_abortable⟩, freed⟩ = 0 ∧
    rd_kafka_error_is_txn_abortable ⟨⟨code, errstr, fatal, true⟩, freed⟩ = 1 ∧
    rd_kafka_error_is_txn_abortable ⟨⟨code, errstr, fatal, false⟩, freed⟩ = 0 ∧
    rd_kafka_error_is_fatal error = (if error.obj.fatal = true then 1 else 0) ∧
    rd_kafka_error_is_txn_abortable error
      = (if error.obj.txn_abortable = true then 1 else 0) ∧
    (rd_kafka_error_is_fatal error = 0 ∨ rd_kafka_error_is_fatal error = 1) ∧
    (rd_kafka_error_is_txn_abortable error = 0 ∨
      rd_kafka_error_is_txn_abortable error = 1) := by
  refine ⟨rfl, rfl, rfl, rfl, rfl, rfl, ?_, ?_⟩
  · unfold rd_kafka_error_is_fatal
    cases error.obj.fatal <;> simp
  · unfold rd_kafka_error_is_txn_abortable
    cases error.obj.txn_abortable <;> simp

/-! ## Lifecycle -/

theorem new_v_freed (E : Env) (code : Int) (fmt : Option (List Char))
    (ap : va_list) : (rd_kafka_error_new_v E code fmt ap).freed = 0 := by
  unfold rd_kafka_error_new_v
  cases fmt_given fmt <;> simp

/-- C12: over the lifecycle states constructed / consumed: for every error
value, every buffer and every size, `rd_kafka_error_to_legacy` hands the error
to `rd_free` exactly once more than before, so the value is consumed when the
call returns; the code returned and the text written are those read from the
object as it was before the call, and the object freed is that same object.
A value fresh from the constructor is in the constructed state and has been
freed exactly once after the call. -/
theorem to_legacy_consumes_once (E : Env) (error : error_ptr)
    (errstr : Option (List Char)) (errstr_size : Nat) (code : Int)
    (fmt : Option (List Char)) (args : List Arg) :
    (rd_kafka_error_to_legacy E error errstr errstr_size).error.freed
      = error.freed + 1 ∧
    (rd_kafka_error_to_legacy E error errstr errstr_size).error.state
      = lifecycle.consumed ∧
    (rd_kafka_error_to_legacy E error errstr errstr_size).error.obj = error.obj ∧
    (rd_kafka_error_to_legacy E error errstr errstr_size).err
      = rd_kafka_error_code error ∧
    (rd_kafka_error_to_legacy E error errstr errstr_size).errstr
      = (rd_snprintf E errstr errstr_size fmt_s
          [Arg.str (rd_kafka_error_string E error)]).1 ∧
    (rd_kafka_error_new E code fmt args).state = lifecycle.constructed ∧
    (rd_kafka_error_to_legacy E (rd_kafka_error_new E code fmt args) errstr
      errstr_size).error.freed = 1 := by
  have hf := new_v_freed E code fmt (va_start args)
  refine ⟨rfl, ?_, rfl, rfl, rfl, ?_, ?_⟩
  · simp [error_ptr.state, rd_kafka_error_to_legacy, rd_kafka_error_destroy,
      rd_free]
  · simp [error_ptr.state, rd_kafka_error_new, hf]
  · simp [rd_kafka_error_to_legacy, rd_kafka_error_destroy, rd_free,
      rd_kafka_error_new, hf]

/-! ## Sizing of the message storage -/

theorem strsz_of_not_given (E : Env) (fmt : Option (List Char))
    (h : fmt_given fmt = false) : rd_kafka_error_new_v_strsz E fmt = 0 := by
  simp [rd_kafka_error_new_v_strsz, h]

theorem strsz_of_measured (E : Env) (f m : List Char) (hf : deref f ≠ NUL)
    (hmeas : E.vformat f E.ap1 = some m) :
    rd_kafka_error_new_v_strsz E (some f) = (m.length : Int) + 1 := by
  simp [rd_kafka_error_new_v_strsz, (fmt_given_some f).2 hf, rd_vsnprintf, hmeas]

theorem strsz_of_measure_failure (E : Env) (code : Int) (f : List Char)
    (ap : va_list) (hf : deref f ≠ NUL) (hmeas : E.vformat f E.ap1 = none) :
    rd_kafka_error_new_v_strsz E (some f) = 0 ∧
    (rd_kafka_error_new_v E code (some f) ap).obj.errstr = some [] := by
  have hg : fmt_given (some f) = true := (fmt_given_some f).2 hf
  have hsz : rd_kafka_error_new_v_strsz E (some f) = 0 := by
    simp [rd_kafka_error_new_v_strsz, hg, rd_vsnprintf, hmeas]
  refine ⟨hsz, ?_⟩
  simp only [rd_kafka_error_new_v, hg, hsz, if_true, rd_vsnprintf]
  cases E.vformat ((some f).getD []) (va_copy ap) <;> simp [rd_malloc]

/-- C14, the code at `rd_kafka_error_new_v(7, "%d", ap)` with `ap` holding
12345 while `ap1` stands for a list holding 7: the measuring call reads `ap1`
and reports 1, so `strsz` is 2; the rendering call on the copy `ap2` of `ap`
reports 5 for the text `12345`; two bytes are stored and the message is
`1`. -/
theorem new_v_measures_ap1 :
    hostFormat "%d".toList [Arg.int 12345] = some "12345".toList ∧
    (rd_vsnprintf (hostEnv [Arg.int 7]) none 0 "%d".toList
      (hostEnv [Arg.int 7]).ap1).2 = 1 ∧
    rd_kafka_error_new_v_strsz (hostEnv [Arg.int 7]) (some "%d".toList) = 2 ∧
    (rd_vsnprintf (hostEnv [Arg.int 7])
      (some (rd_malloc (hostEnv [Arg.int 7]) 2)) 2 "%d".toList
      (va_copy [Arg.int 12345])).2 = 5 ∧
    (rd_kafka_error_new_v (hostEnv [Arg.int 7]) 7 (some "%d".toList)
      [Arg.int 12345]).obj.errstr = some ['1', NUL] ∧
    message (hostEnv [Arg.int 7])
      (rd_kafka_error_new_v (hostEnv [Arg.int 7]) 7 (some "%d".toList)
        [Arg.int 12345]) = "1".toList := by
  decide

/-- C15, the code at `rd_kafka_error_new_v(7, "100%", ap)` with no arguments:
the template is non-empty, the engine reports failure for it, the measuring
call returns -1, `strsz` is 0, and `errstr` points at storage of no bytes,
which holds no NUL. -/
theorem new_v_reserves_nothing_on_failure :
    deref "100%".toList ≠ NUL ∧
    hostFormat "100%".toList [] = none ∧
    (rd_vsnprintf (hostEnv []) none 0 "100%".toList (hostEnv []).ap1).2 = -1 ∧
    rd_kafka_error_new_v_strsz (hostEnv []) (some "100%".toList) = 0 ∧
    (rd_kafka_error_new_v (hostEnv []) 7 (some "100%".toList) []).obj.errstr
      = some [] ∧
    NUL ∉ ([] : List Char) := by
  decide

/-! ## The legacy pair and the flags -/

/-- C16: the legacy pair produced by `rd_kafka_error_to_legacy` depends only on
the error's code, its message and the buffer size: two error values with the
same code and the same message field but any flags (and allocation counts)
yield the same returned code and the same buffer contents, for every buffer
and size; and when the engine honours `%s`, so do two error values with the
same code and the same message text. -/
theorem to_legacy_ignores_flags (E : Env) (code : Int)
    (msg : Option (List Char)) (f1 t1 f2 t2 : Bool) (k1 k2 : Nat)
    (e1 e2 : error_ptr) (buf : Option (List Char)) (n : Nat) :
    ((rd_kafka_error_to_legacy E ⟨⟨code, msg, f1, t1⟩, k1⟩ buf n).err
        = (rd_kafka_error_to_legacy E ⟨⟨code, msg, f2, t2⟩, k2⟩ buf n).err ∧
      (rd_kafka_error_to_legacy E ⟨⟨code, msg, f1, t1⟩, k1⟩ buf n).errstr
        = (rd_kafka_error_to_legacy E ⟨⟨code, msg, f2, t2⟩, k2⟩ buf n).errstr) ∧
    (prints_s E → e1.obj.code = e2.obj.code → message E e1 = message E e2 →
      (rd_kafka_error_to_legacy E e1 buf n).err
        = (rd_kafka_error_to_legacy E e2 buf n).err ∧
      (rd_kafka_error_to_legacy E e1 buf n).errstr
        = (rd_kafka_error_to_legacy E e2 buf n).errstr) := by
  refine ⟨⟨rfl, rfl⟩, fun hs hc hm => ⟨hc, ?_⟩⟩
  unfold message at hm
  simp only [rd_kafka_error_to_legacy, rd_snprintf, rd_vsnprintf, va_start,
    hs (rd_kafka_error_string E e1), hs (rd_kafka_error_string E e2), hm]

/-- C16 witness: code -185 without a message and unflagged, against code -185
with its description stored as the message and both flags set, into a buffer
of size 6. -/
theorem to_legacy_ignores_flags_witness :
    (rd_kafka_error_to_legacy (hostEnv []) ⟨⟨-185, none, false, false⟩, 0⟩
        (some "0123456789".toList) 6).err
      = (rd_kafka_error_to_legacy (hostEnv [])
          ⟨⟨-185, some "Local: Timed out".toList, true, true⟩, 0⟩
          (some "0123456789".toList) 6).err ∧
    (rd_kafka_error_to_legacy (hostEnv []) ⟨⟨-185, none, false, false⟩, 0⟩
        (some "0123456789".toList) 6).errstr
      = (rd_kafka_error_to_legacy (hostEnv [])
          ⟨⟨-185, some "Local: Timed out".toList, true, true⟩, 0⟩
          (some "0123456789".toList) 6).errstr :=
  (to_legacy_ignores_flags (hostEnv []) 0 none false false false false 0 0
    ⟨⟨-185, none, false, false⟩, 0⟩
    ⟨⟨-185, some "Local: Timed out".toList, true, true⟩, 0⟩
    (some "0123456789".toList) 6).2 (hostEnv_prints_s []) (by decide) (by decide)

end RdKafkaError
